import Mathlib

/-!
Verification of the Aruba License Monitor (src/app.py, src/aruba_license_monitor.py).

Shallow embedding of the data model and the operations the claims concern:
the alert evaluator check_license_alerts, the polling worker loop body,
the manual refresh endpoint, the configuration save endpoints, the SMTP
dispatcher connection selection, and the device session client.

Python strings are modelled as Lean String, with the Python operations
str.strip, str.split(",") , str.startswith and int(...) embedded as
executable functions over the character list. Dictionaries that may lack
keys are modelled with Option; association lists model the JSON dicts
keyed by hostname. An exception raised by Python code and caught by an
enclosing try/except is modelled with Except: the Except.error value marks
the point at which control jumps to the handler.
-/

deriving instance DecidableEq for Except

/-- Python str.startswith over character lists. -/
def listStartsWith : List Char → List Char → Bool
  | [], _ => true
  | _ :: _, [] => false
  | p :: ps, c :: cs => p = c && listStartsWith ps cs

/-- Python s.startswith(pre). -/
def pyStartsWith (s pre : String) : Bool := listStartsWith pre.data s.data

/-- Python s.split(",") over character lists: pieces between commas, empty pieces kept. -/
def splitOnComma : List Char → List (List Char)
  | [] => [[]]
  | c :: cs =>
    let rest := splitOnComma cs
    if c = ',' then [] :: rest
    else match rest with
      | [] => [[c]]
      | piece :: more => (c :: piece) :: more

/-- Python s.split(","). -/
def pySplitComma (s : String) : List String := (splitOnComma s.data).map String.mk

/-- Python str.strip over character lists: drop leading and trailing whitespace. -/
def pyStripChars (s : List Char) : List Char :=
  ((s.dropWhile Char.isWhitespace).reverse.dropWhile Char.isWhitespace).reverse

/-- Python s.strip(). -/
def pyStrip (s : String) : String := String.mk (pyStripChars s.data)

/-- Digit-string value for Python int(...): all characters must be digits and
the string must be nonempty, otherwise int raises ValueError (modelled none). -/
def parsePyIntDigits (s : List Char) : Option Nat :=
  if s ≠ [] ∧ s.all Char.isDigit then
    some (s.foldl (fun acc c => 10 * acc + (c.toNat - 48)) 0)
  else none

/-- Python int(...) on a stripped character list: optional sign then digits. -/
def parsePyIntChars : List Char → Option Int
  | [] => none
  | c :: cs =>
    if c = '-' then (parsePyIntDigits cs).map (fun n => -(n : Int))
    else if c = '+' then (parsePyIntDigits cs).map (fun n => (n : Int))
    else (parsePyIntDigits (c :: cs)).map (fun n => (n : Int))

/-- Python int(s) for a string s: strip whitespace, optional sign, digits;
none models the ValueError raised on a malformed value. -/
def parsePyInt (s : String) : Option Int := parsePyIntChars (pyStripChars s.data)

/-- One alert rule as stored by save_alert_settings in
config_data["alert_settings"][hostname]: threshold, email flag, syslog flag. -/
structure AlertRule where
  threshold : Int
  email_enabled : Bool
  syslog_enabled : Bool
deriving Repr, DecidableEq

/-- One per-entity usage row of a license pool. Hostname and AP model
client.get("Hostname") and client.get("AP"): none when the key is absent.
The AP value arrives from the controller JSON as a string. -/
structure UsageRow where
  Hostname : Option String
  AP : Option String
deriving Repr, DecidableEq

/-- Notification channel of an alert. -/
inductive Channel where
  | email
  | syslog
deriving Repr, DecidableEq

/-- One emitted alert: a call of send_alert_notification(hostname, ap_value,
threshold, alert_type) made by check_license_alerts. -/
structure AlertEvent where
  hostname : String
  ap_value : Int
  threshold : Int
  channel : Channel
deriving Repr, DecidableEq

/-- Lookup in the alert_settings dict (alert_settings.get(hostname)). -/
def lookupRule : List (String × AlertRule) → String → Option AlertRule
  | [], _ => none
  | (k, r) :: rest, h => if k = h then some r else lookupRule rest h

/-- Lookup through the optional alert_settings key of the configuration. -/
def lookupAlertSetting (s : Option (List (String × AlertRule))) (h : String) : Option AlertRule :=
  match s with
  | none => none
  | some l => lookupRule l h

/-- Events emitted for one evaluated row (src/app.py lines 414-434): look up
the rule for the hostname; with no rule, skip; when ap_value > threshold and
threshold > 0, emit one event per enabled channel, email first. -/
def rowEvents (settings : List (String × AlertRule)) (hostname : String) (ap_value : Int) :
    List AlertEvent :=
  match lookupRule settings hostname with
  | none => []
  | some r =>
    if ap_value > r.threshold ∧ r.threshold > 0 then
      (if r.email_enabled then [⟨hostname, ap_value, r.threshold, Channel.email⟩] else []) ++
      (if r.syslog_enabled then [⟨hostname, ap_value, r.threshold, Channel.syslog⟩] else [])
    else []

/-- Value of int(client.get("AP", 0)): an absent key gives the Python int 0;
a present string is parsed by int, raising (none) on a malformed value. -/
def parseAPValue : Option String → Option Int
  | none => some 0
  | some s => parsePyInt s

/-- Evaluation of one row by check_license_alerts (src/app.py lines 409-434):
rows with an absent, empty or "TOTAL" hostname are skipped; otherwise the AP
value is parsed (Except.error models the ValueError escaping to the handler
at the bottom of check_license_alerts) and the rule is applied. -/
def processRow (settings : List (String × AlertRule)) (row : UsageRow) :
    Except Unit (List AlertEvent) :=
  match row.Hostname with
  | none => Except.ok []
  | some h =>
    if h ≠ "" ∧ h ≠ "TOTAL" then
      match parseAPValue row.AP with
      | none => Except.error ()
      | some v => Except.ok (rowEvents settings h v)
    else Except.ok []

/-- The rows of one pool, in order. The Bool is true when a ValueError
aborted the scan: events already dispatched before the abort are kept, the
aborted row and everything after it contribute nothing. -/
def processRows (settings : List (String × AlertRule)) : List UsageRow → List AlertEvent × Bool
  | [] => ([], false)
  | r :: rs =>
    match processRow settings r with
    | Except.error _ => ([], true)
    | Except.ok evs =>
      let p := processRows settings rs
      (evs ++ p.1, p.2)

/-- Pool name filter of check_license_alerts (src/app.py line 405). -/
def poolNameMatches (name : String) : Bool :=
  pyStartsWith name "License Clients License Usage for pool"

/-- The pool loop of check_license_alerts: pools are visited in order, only
matching pool names are scanned, and an exception inside one pool aborts all
remaining pools (it propagates to the single function-level handler). -/
def checkPools (settings : List (String × AlertRule)) :
    List (String × List UsageRow) → List AlertEvent × Bool
  | [] => ([], false)
  | (name, rows) :: ps =>
    if poolNameMatches name then
      let p := processRows settings rows
      if p.2 then (p.1, true)
      else
        let q := checkPools settings ps
        (p.1 ++ q.1, q.2)
    else checkPools settings ps

/-- check_license_alerts (src/app.py lines 392-439) as a function from the
alert settings and the license_usage pools to the list of dispatched
send_alert_notification calls, together with a flag telling whether a
ValueError cut the evaluation short (it is caught, so the function itself
always returns normally). An empty alert_settings dict returns at once. -/
def check_license_alerts (settings : List (String × AlertRule))
    (pools : List (String × List UsageRow)) : List AlertEvent × Bool :=
  if settings.isEmpty then ([], false)
  else checkPools settings pools

/-- Events of a row that does not raise; empty for a raising row. -/
def rowOk (settings : List (String × AlertRule)) (r : UsageRow) : List AlertEvent :=
  match processRow settings r with
  | Except.ok evs => evs
  | Except.error _ => []

/-- SMTP settings as given to NotificationManager.configure_smtp. -/
structure SMTPConfig where
  server : String
  port : Int
  username : String
  password : String
  from_email : String
  to_emails : List String
deriving Repr, DecidableEq

/-- Observable actions of NotificationManager.send_email on its SMTP session. -/
inductive EmailAction where
  | sslConnect (server : String) (port : Int)
  | plainConnect (server : String) (port : Int)
  | upgradeTLS
  | login (username password : String)
  | sendMessage
  | quit
deriving Repr, DecidableEq

/-- NotificationManager.send_email (src/app.py lines 143-173): with no SMTP
configuration it returns False making no connection; otherwise port 465
selects smtplib.SMTP_SSL, any other port selects smtplib.SMTP followed by
starttls, then login, send_message, quit. -/
def send_email_actions (smtp_config : Option SMTPConfig) : List EmailAction :=
  match smtp_config with
  | none => []
  | some c =>
    (if c.port = 465 then [EmailAction.sslConnect c.server c.port]
     else [EmailAction.plainConnect c.server c.port, EmailAction.upgradeTLS]) ++
    [EmailAction.login c.username c.password, EmailAction.sendMessage, EmailAction.quit]

/-- Recipient list built by save_config_api (src/app.py line 661):
split smtp_to on commas, strip each piece, keep the nonempty ones. -/
def save_config_api_to_emails (smtp_to : String) : List String :=
  ((pySplitComma smtp_to).map pyStrip).filter (fun e => e ≠ "")

/-- Recipient list built by the lazy first-use configuration inside
send_alert_notification (src/app.py line 465) and send_alert (line 851):
the raw configured string wrapped as a one-element list, with no split. -/
def alert_send_lazy_to_emails (smtp_to : String) : List String := [smtp_to]

/-- The application configuration dict config_data, with the keys written by
save_config_api; polling_interval and alert_settings are optional because a
freshly loaded or empty configuration may lack them. -/
structure Config where
  controller_ip : String
  username : String
  password : String
  polling_interval : Option Int
  smtp_enabled : Bool
  smtp_server : String
  smtp_port : Int
  smtp_username : String
  smtp_password : String
  smtp_from : String
  smtp_to : String
  syslog_enabled : Bool
  syslog_server : String
  syslog_port : Int
  enable_notifications : Bool
  alert_settings : Option (List (String × AlertRule))
deriving Repr, DecidableEq

/-- The form fields parsed by save_config_api (src/app.py lines 620-636). -/
structure ConfigForm where
  controller_ip : String
  username : String
  password : String
  polling_interval : Int
  smtp_enabled : Bool
  smtp_server : String
  smtp_port : Int
  smtp_username : String
  smtp_password : String
  smtp_from : String
  smtp_to : String
  syslog_enabled : Bool
  syslog_server : String
  syslog_port : Int
  enable_notifications : Bool
deriving Repr, DecidableEq

/-- The configuration replacement performed by save_config_api (src/app.py
lines 620-646): new_config is built from the form alone, then the existing
alert_settings entry, when present, is copied into it, and config_data is
replaced by new_config. -/
def save_config_update (form : ConfigForm) (old : Config) : Config :=
  { controller_ip := form.controller_ip
    username := form.username
    password := form.password
    polling_interval := some form.polling_interval
    smtp_enabled := form.smtp_enabled
    smtp_server := form.smtp_server
    smtp_port := form.smtp_port
    smtp_username := form.smtp_username
    smtp_password := form.smtp_password
    smtp_from := form.smtp_from
    smtp_to := form.smtp_to
    syslog_enabled := form.syslog_enabled
    syslog_server := form.syslog_server
    syslog_port := form.syslog_port
    enable_notifications := form.enable_notifications
    alert_settings := old.alert_settings }

/-- Threshold stored by save_alert_settings (src/app.py line 791):
int(threshold) if threshold else 0. The input is the JSON value, none for
absent or null; a zero input is falsy in Python and also stores 0. -/
def save_alert_threshold (threshold : Option Int) : Int :=
  match threshold with
  | none => 0
  | some t => if t ≠ 0 then t else 0

/-- Dict assignment alert_settings[hostname] = rule on the association list. -/
def insertRule : List (String × AlertRule) → String → AlertRule → List (String × AlertRule)
  | [], h, r => [(h, r)]
  | (k, r0) :: rest, h, r =>
    if k = h then (k, r) :: rest else (k, r0) :: insertRule rest h r

/-- save_alert_settings (src/app.py lines 772-804): reject a missing or empty
hostname, otherwise create the alert_settings dict when absent and store the
rule built from the request under the hostname. The Bool is the success flag
of the JSON response. -/
def save_alert_settings_op (hostname : String) (threshold : Option Int)
    (email_enabled syslog_enabled : Bool) (cfg : Config) : Config × Bool :=
  if hostname = "" then (cfg, false)
  else
    let settings := cfg.alert_settings.getD []
    let rule : AlertRule :=
      ⟨save_alert_threshold threshold, email_enabled, syslog_enabled⟩
    ({ cfg with alert_settings := some (insertRule settings hostname rule) }, true)

/-- The combined data stored into license_data on a successful cycle:
the license_usage pools plus the (possibly empty) summary blob. -/
structure LicenseData where
  license_usage : List (String × List UsageRow)
  license_summary : String
deriving Repr, DecidableEq

/-- One iteration of the while loop of polling_worker (src/app.py lines
343-384). usageResult is the value returned by get_license_usage, which
catches transport, authentication and command errors internally and returns
an error status rather than raising. persistRaises tells whether writing the
timestamped snapshot file raises after license_data has been assigned.
The result is the new license_data together with the seconds slept:
60 in the exception handler, interval * 60 otherwise. -/
def polling_iteration (cfg : Config) (usageResult : Except String LicenseData)
    (persistRaises : Bool) (st : Option LicenseData) : Option LicenseData × Int :=
  let interval := cfg.polling_interval.getD 86400
  if cfg.controller_ip ≠ "" ∧ cfg.username ≠ "" ∧ cfg.password ≠ "" then
    match usageResult with
    | Except.ok d => if persistRaises then (some d, 60) else (some d, interval * 60)
    | Except.error _ => (st, interval * 60)
  else (st, interval * 60)

/-- refresh_license (src/app.py lines 726-759): with no configured controller
it returns an error; otherwise license_data is replaced only when
get_license_usage reports success. The Bool is the success flag of the
response. -/
def refresh_license_update (cfg : Config) (usageResult : Except String LicenseData)
    (st : Option LicenseData) : Option LicenseData × Bool :=
  if cfg.controller_ip = "" then (st, false)
  else
    match usageResult with
    | Except.ok d => (some d, true)
    | Except.error _ => (st, false)

/-- Session state of ArubaAPIClient: uid_aruba and the cookie jar, both None
until a successful login. The cookie jar is abstracted to an opaque marker. -/
structure ClientState where
  uid_aruba : Option String
  cookies : Option String
deriving Repr, DecidableEq

/-- A network request issued through the requests session. -/
inductive NetRequest where
  | post (url : String)
  | get (url : String)
deriving Repr, DecidableEq

/-- The status dict returned by the client methods. -/
inductive ApiResult where
  | success (message : String)
  | error (message : String)
deriving Repr, DecidableEq

/-- Outcome of one HTTP call: a parsed response carrying the
_global_result.status field and the UIDARUBA value, or a raised
requests.exceptions.RequestException. -/
inductive HttpOutcome where
  | ok (status : String) (uid : String)
  | requestError (msg : String)
deriving Repr, DecidableEq

/-- self.base_url of ArubaAPIClient. -/
def client_base_url (mcr_ip : String) : String := "https://" ++ mcr_ip ++ ":4343/v1"

/-- A freshly constructed client: uid_aruba = None, cookies = None. -/
def client_init : ClientState := ⟨none, none⟩

/-- ArubaAPIClient.login: posts to /api/login; on status "0" stores UIDARUBA
and the cookie jar, otherwise leaves the state alone and reports the error. -/
def client_login (mcr_ip : String) (st : ClientState) (resp : HttpOutcome) :
    ClientState × ApiResult × List NetRequest :=
  let url := client_base_url mcr_ip ++ "/api/login"
  match resp with
  | HttpOutcome.ok status uid =>
    if status = "0" then
      (⟨some uid, some "session-cookies"⟩, ApiResult.success "登录成功", [NetRequest.post url])
    else (st, ApiResult.error "登录失败", [NetRequest.post url])
  | HttpOutcome.requestError m =>
    (st, ApiResult.error ("登录请求异常: " ++ m), [NetRequest.post url])

/-- ArubaAPIClient.show_command (src/app.py lines 101-114 and
src/aruba_license_monitor.py lines 119-144): with uid_aruba unset it returns
the not-logged-in error before building the request; otherwise it issues one
GET to /configuration/showcommand and wraps the response. -/
def client_show_command (mcr_ip : String) (st : ClientState) (command : String)
    (resp : HttpOutcome) : ClientState × ApiResult × List NetRequest :=
  match st.uid_aruba with
  | none => (st, ApiResult.error "未登录，请先调用login方法", [])
  | some _ =>
    let url := client_base_url mcr_ip ++ "/configuration/showcommand"
    match resp with
    | HttpOutcome.ok status _ => (st, ApiResult.success status, [NetRequest.get url])
    | HttpOutcome.requestError m =>
      (st, ApiResult.error ("执行show命令异常: " ++ m), [NetRequest.get url])

/-- ArubaAPIClient.logout: with uid_aruba unset it returns the not-logged-in
error and issues nothing; otherwise it issues one GET to /api/logout and on
status "0" clears uid_aruba and the cookie jar. -/
def client_logout (mcr_ip : String) (st : ClientState) (resp : HttpOutcome) :
    ClientState × ApiResult × List NetRequest :=
  match st.uid_aruba with
  | none => (st, ApiResult.error "未登录", [])
  | some _ =>
    let url := client_base_url mcr_ip ++ "/api/logout"
    match resp with
    | HttpOutcome.ok status _ =>
      if status = "0" then (⟨none, none⟩, ApiResult.success "登出成功", [NetRequest.get url])
      else (st, ApiResult.error "登出失败", [NetRequest.get url])
    | HttpOutcome.requestError m =>
      (st, ApiResult.error ("登出请求异常: " ++ m), [NetRequest.get url])

/-- Concrete rule used by the counterexamples and witnesses. -/
def cRule : AlertRule := ⟨1, true, false⟩

/-- Concrete alert settings with two configured hostnames. -/
def cSettings : List (String × AlertRule) := [("ap-01", cRule), ("ap-02", cRule)]

/-- Concrete matching pool name. -/
def cPoolName : String := "License Clients License Usage for pool 1"

/-- A row with a malformed AP value. -/
def rowBad : UsageRow := ⟨some "ap-01", some "abc"⟩

/-- A well-formed row that breaches its threshold. -/
def rowGood : UsageRow := ⟨some "ap-02", some "5"⟩

/-- Concrete configuration used by the polling and refresh counterexamples. -/
def cConfig : Config :=
  { controller_ip := "10.0.60.60"
    username := "admin"
    password := "pw"
    polling_interval := some 1440
    smtp_enabled := false
    smtp_server := ""
    smtp_port := 587
    smtp_username := ""
    smtp_password := ""
    smtp_from := ""
    smtp_to := ""
    syslog_enabled := false
    syslog_server := ""
    syslog_port := 514
    enable_notifications := false
    alert_settings := none }

/-- Two distinct concrete snapshots. -/
def cData0 : LicenseData := ⟨[], "summary-0"⟩

/-- A second snapshot, different from the first. -/
def cData1 : LicenseData := ⟨[(cPoolName, [rowGood])], "summary-1"⟩

/-- Concrete form submission used by the save_config_api witness. -/
def cForm : ConfigForm :=
  { controller_ip := "10.0.60.61"
    username := "admin2"
    password := "pw2"
    polling_interval := 60
    smtp_enabled := true
    smtp_server := "smtp.example.com"
    smtp_port := 587
    smtp_username := "mailer"
    smtp_password := "mailpw"
    smtp_from := "mon@example.com"
    smtp_to := "a@x.com, b@y.com"
    syslog_enabled := true
    syslog_server := "10.0.0.9"
    syslog_port := 514
    enable_notifications := true }

/-- Concrete configuration that already stores alert rules. -/
def cConfigRules : Config := { cConfig with alert_settings := some cSettings }

/-- Rule of the spec scenario: threshold 10, email on, syslog off. -/
def wRule : AlertRule := ⟨10, true, false⟩

/-- Alert settings of the spec scenario. -/
def wSettings : List (String × AlertRule) := [("ap-01", wRule)]

/-- Row of the spec scenario: Hostname ap-01, AP "12". -/
def wRow : UsageRow := ⟨some "ap-01", some "12"⟩

/-- C4: a row whose Hostname key is absent or holds the synthetic TOTAL
marker is never evaluated by check_license_alerts: it yields no AlertEvent
whatever its AP value, and removing it from a pool leaves the evaluation of
the remaining rows unchanged. -/
theorem c4_total_and_missing_rows_skipped (settings : List (String × AlertRule))
    (row : UsageRow) (rs : List UsageRow)
    (h : row.Hostname = none ∨ row.Hostname = some "TOTAL") :
    processRow settings row = Except.ok [] ∧
    processRows settings (row :: rs) = processRows settings rs := by
  have hrow : processRow settings row = Except.ok [] := by
    rcases h with h | h <;> simp [processRow, h]
  exact ⟨hrow, by simp [processRows, hrow]⟩

/-- Witness for C4 at the row with Hostname TOTAL and AP 999 from the spec
scenario. -/
theorem c4_witness :
    processRow cSettings ⟨some "TOTAL", some "999"⟩ = Except.ok [] ∧
    processRows cSettings (⟨some "TOTAL", some "999"⟩ :: [rowGood]) =
      processRows cSettings [rowGood] :=
  c4_total_and_missing_rows_skipped cSettings ⟨some "TOTAL", some "999"⟩ [rowGood]
    (Or.inr rfl)

/-- C6: send_email selects the connection mode solely by the configured
port: 465 connects with SMTP_SSL, any other port connects in plain mode and
upgrades via starttls before logging in. -/
theorem c6_port_selects_connection_mode (c : SMTPConfig) :
    (c.port = 465 →
      send_email_actions (some c) =
        [EmailAction.sslConnect c.server c.port,
         EmailAction.login c.username c.password,
         EmailAction.sendMessage, EmailAction.quit]) ∧
    (c.port ≠ 465 →
      send_email_actions (some c) =
        [EmailAction.plainConnect c.server c.port, EmailAction.upgradeTLS,
         EmailAction.login c.username c.password,
         EmailAction.sendMessage, EmailAction.quit]) := by
  constructor <;> intro h <;> simp [send_email_actions, h]

/-- Witness for C6 at ports 465 and 587. -/
theorem c6_witness :
    send_email_actions (some ⟨"smtp.example.com", 465, "u", "p", "f", ["t"]⟩) =
      [EmailAction.sslConnect "smtp.example.com" 465, EmailAction.login "u" "p",
       EmailAction.sendMessage, EmailAction.quit] ∧
    send_email_actions (some ⟨"smtp.example.com", 587, "u", "p", "f", ["t"]⟩) =
      [EmailAction.plainConnect "smtp.example.com" 587, EmailAction.upgradeTLS,
       EmailAction.login "u" "p", EmailAction.sendMessage, EmailAction.quit] :=
  ⟨(c6_port_selects_connection_mode ⟨"smtp.example.com", 465, "u", "p", "f", ["t"]⟩).1 rfl,
   (c6_port_selects_connection_mode ⟨"smtp.example.com", 587, "u", "p", "f", ["t"]⟩).2
     (by decide)⟩

/-- C8: replacing the configuration through save_config_api keeps every
stored alert rule: any hostname with a rule before the replacement has the
same rule afterwards. -/
theorem c8_alert_rules_preserved (form : ConfigForm) (old : Config) (h : String)
    (r : AlertRule) (hr : lookupAlertSetting old.alert_settings h = some r) :
    lookupAlertSetting (save_config_update form old).alert_settings h = some r := by
  simpa [save_config_update] using hr

/-- Witness for C8 at a concrete form and a configuration holding two rules. -/
theorem c8_witness :
    lookupAlertSetting (save_config_update cForm cConfigRules).alert_settings "ap-01" =
      some cRule :=
  c8_alert_rules_preserved cForm cConfigRules "ap-01" cRule (by decide)

/-- C10: calling show_command or logout while uid_aruba is unset (as it is
before any successful login) returns an error result, issues no network
request and leaves the session state unchanged; a fresh client starts with
uid_aruba unset and a failed login leaves the state unchanged. -/
theorem c10_no_request_before_login (ip cmd em : String) (st : ClientState)
    (resp resp2 : HttpOutcome) (h : st.uid_aruba = none) :
    client_show_command ip st cmd resp = (st, ApiResult.error "未登录，请先调用login方法", []) ∧
    client_logout ip st resp2 = (st, ApiResult.error "未登录", []) ∧
    client_init.uid_aruba = none ∧
    (client_login ip st (HttpOutcome.requestError em)).1 = st := by
  refine ⟨?_, ?_, rfl, ?_⟩ <;>
    simp [client_show_command, client_logout, client_login, h]

/-- Witness for C10 on a freshly constructed client. -/
theorem c10_witness :
    client_show_command "10.0.60.60" client_init "show license-usage" (HttpOutcome.ok "0" "u") =
      (client_init, ApiResult.error "未登录，请先调用login方法", []) ∧
    client_logout "10.0.60.60" client_init (HttpOutcome.ok "0" "u") =
      (client_init, ApiResult.error "未登录", []) ∧
    client_init.uid_aruba = none ∧
    (client_login "10.0.60.60" client_init (HttpOutcome.requestError "timeout")).1 =
      client_init :=
  c10_no_request_before_login "10.0.60.60" "show license-usage" "timeout" client_init
    (HttpOutcome.ok "0" "u") (HttpOutcome.ok "0" "u") rfl

/-- C5 counterexample: with two comma-joined addresses configured, the lazy
first-use configuration at the alert send site passes the raw string as a
single recipient, which differs from the split-and-trimmed list the claim
requires on every path. -/
theorem c5_counterexample :
    alert_send_lazy_to_emails "a@x.com, b@y.com" = ["a@x.com, b@y.com"] ∧
    save_config_api_to_emails "a@x.com, b@y.com" = ["a@x.com", "b@y.com"] ∧
    alert_send_lazy_to_emails "a@x.com, b@y.com" ≠
      save_config_api_to_emails "a@x.com, b@y.com" := by
  exact ⟨rfl, by decide, by decide⟩

/-- C5 amended: the save_config_api path builds the recipient list as the
trimmed nonempty pieces of the comma-split string, while the lazy first-use
configuration at the alert send sites passes the raw configured string as a
single recipient without splitting. -/
theorem c5_amended_recipient_paths (s addr : String) :
    alert_send_lazy_to_emails s = [s] ∧
    (addr ∈ save_config_api_to_emails s ↔
      ∃ piece ∈ pySplitComma s, pyStrip piece = addr ∧ addr ≠ "") := by
  refine ⟨rfl, ?_⟩
  simp only [save_config_api_to_emails, List.mem_filter, List.mem_map,
    decide_eq_true_eq]
  constructor
  · rintro ⟨⟨piece, hp, hstrip⟩, hne⟩
    exact ⟨piece, hp, hstrip, hne⟩
  · rintro ⟨piece, hp, hstrip, hne⟩
    exact ⟨⟨piece, hp, hstrip⟩, hne⟩

/-- Witness for C5 amended at the two-address configuration string. -/
theorem c5_witness :
    alert_send_lazy_to_emails "a@x.com, b@y.com" = ["a@x.com, b@y.com"] ∧
    ("b@y.com" ∈ save_config_api_to_emails "a@x.com, b@y.com" ↔
      ∃ piece ∈ pySplitComma "a@x.com, b@y.com",
        pyStrip piece = "b@y.com" ∧ "b@y.com" ≠ "") :=
  c5_amended_recipient_paths "a@x.com, b@y.com" "b@y.com"

/-- C2 counterexample: a pool whose first row carries the malformed AP value
"abc" yields no event at all and the aborted flag, although the following
row breaches its threshold; the same pool without the malformed row yields
that event. The claim that a malformed value degrades to 0 and evaluation
continues with the remaining rows is therefore false on the code. -/
theorem c2_counterexample :
    check_license_alerts cSettings [(cPoolName, [rowBad, rowGood])] = ([], true) ∧
    check_license_alerts cSettings [(cPoolName, [rowGood])] =
      ([⟨"ap-02", 5, 1, Channel.email⟩], false) := by
  exact ⟨by decide, by decide⟩

/-- C2 amended: int(...) on a malformed AP value raises a ValueError that is
caught only by the handler at the bottom of check_license_alerts, so no
error escapes, but the malformed row and every row after it are abandoned
(events already dispatched for earlier rows stand); only an absent AP key is
treated as the value 0 and evaluation then continues normally. -/
theorem c2_amended_malformed_aborts (settings : List (String × AlertRule))
    (pre : List UsageRow) (row : UsageRow) (post : List UsageRow) (hn : String)
    (hpre : ∀ r ∈ pre, processRow settings r ≠ Except.error ())
    (hrow : processRow settings row = Except.error ())
    (hne : hn ≠ "") (hnt : hn ≠ "TOTAL") :
    processRows settings (pre ++ row :: post) =
      ((pre.map (rowOk settings)).flatten, true) ∧
    processRow settings ⟨some hn, none⟩ = Except.ok (rowEvents settings hn 0) := by
  constructor
  · induction pre with
    | nil => simp [processRows, hrow]
    | cons r rs ih =>
      have hr : processRow settings r ≠ Except.error () :=
        hpre r (List.mem_cons_self r rs)
      have ih2 := ih (fun x hx => hpre x (List.mem_cons_of_mem r hx))
      cases hpr : processRow settings r with
      | error e => cases e; exact absurd hpr hr
      | ok evs => simp [processRows, hpr, ih2, rowOk]
  · simp [processRow, hne, hnt, parseAPValue]

/-- Witness for C2 amended: one clean breaching row, then the malformed row,
then another clean row; and the absent-AP row for hostname ap-01. -/
theorem c2_witness :
    processRows cSettings ([rowGood] ++ rowBad :: [rowGood]) =
      (([rowGood].map (rowOk cSettings)).flatten, true) ∧
    processRow cSettings ⟨some "ap-01", none⟩ =
      Except.ok (rowEvents cSettings "ap-01" 0) :=
  c2_amended_malformed_aborts cSettings [rowGood] rowBad [rowGood] "ap-01"
    (by decide) (by decide) (by decide) (by decide)

/-- C3 counterexample: a cycle whose login fails is reported by
get_license_usage as an error result, not an exception, so the worker falls
through to the normal sleep and waits the full configured interval
(1440 * 60 seconds here), not the 60-second backoff the claim states. -/
theorem c3_counterexample :
    polling_iteration cConfig (Except.error "登录失败") false (some cData0) =
      (some cData0, 1440 * 60) ∧
    (1440 * 60 : Int) ≠ 60 := by
  exact ⟨by decide, by decide⟩

/-- C3 amended: the 60-second backoff fires only when the loop body raises
an exception (for example a snapshot persistence failure after a successful
fetch); transport, authentication and command errors are converted to error
results inside get_license_usage, and on those the worker logs the failure
and sleeps the full configured interval. -/
theorem c3_amended_backoff (cfg : Config) (st : Option LicenseData) (msg : String)
    (d : LicenseData) (pr : Bool)
    (hc : cfg.controller_ip ≠ "" ∧ cfg.username ≠ "" ∧ cfg.password ≠ "") :
    (polling_iteration cfg (Except.error msg) pr st).2 =
      (cfg.polling_interval.getD 86400) * 60 ∧
    (polling_iteration cfg (Except.ok d) true st).2 = 60 := by
  constructor <;> simp [polling_iteration, hc]

/-- Witness for C3 amended at the concrete configuration. -/
theorem c3_witness :
    (polling_iteration cConfig (Except.error "网络错误") false (some cData0)).2 =
      (cConfig.polling_interval.getD 86400) * 60 ∧
    (polling_iteration cConfig (Except.ok cData1) true (some cData0)).2 = 60 :=
  c3_amended_backoff cConfig (some cData0) "网络错误" cData1 false (by decide)

/-- C7 counterexample: a cycle in which the fetch succeeds but persisting
the snapshot raises takes the exception path (60-second sleep), i.e. the
cycle fails, yet license_data has already been replaced by the new data, so
a failing cycle does not always leave the snapshot unchanged. -/
theorem c7_counterexample :
    polling_iteration cConfig (Except.ok cData1) true (some cData0) =
      (some cData1, 60) ∧
    some cData1 ≠ some cData0 := by
  exact ⟨by decide, by decide⟩

/-- C7 amended: a cycle or manual refresh whose fetch fails (login error,
command error, transport error reported by get_license_usage) leaves
license_data unchanged; when the fetch succeeds, license_data is replaced
even if a later step of the cycle (snapshot persistence) raises, so the
snapshot served is always the most recent successfully fetched one. -/
theorem c7_amended_snapshot_preserved (cfg : Config) (st : Option LicenseData)
    (msg : String) (pr : Bool) (d : LicenseData)
    (hc : cfg.controller_ip ≠ "" ∧ cfg.username ≠ "" ∧ cfg.password ≠ "") :
    (polling_iteration cfg (Except.error msg) pr st).1 = st ∧
    (refresh_license_update cfg (Except.error msg) st).1 = st ∧
    (polling_iteration cfg (Except.ok d) true st).1 = some d := by
  refine ⟨by simp [polling_iteration, hc], ?_, by simp [polling_iteration, hc]⟩
  simp [refresh_license_update, hc.1]

/-- Witness for C7 amended at the concrete configuration and snapshots. -/
theorem c7_witness :
    (polling_iteration cConfig (Except.error "命令执行失败") false (some cData0)).1 =
      some cData0 ∧
    (refresh_license_update cConfig (Except.error "命令执行失败") (some cData0)).1 =
      some cData0 ∧
    (polling_iteration cConfig (Except.ok cData1) true (some cData0)).1 = some cData1 :=
  c7_amended_snapshot_preserved cConfig (some cData0) "命令执行失败" false cData1
    (by decide)

/-- C9 counterexample: save_alert_settings accepts the threshold -5 (the
request succeeds) and stores the rule with the negative threshold -5, so the
stored threshold is not always non-negative. -/
theorem c9_counterexample :
    (save_alert_settings_op "ap-01" (some (-5)) true false cConfig).2 = true ∧
    lookupAlertSetting
      (save_alert_settings_op "ap-01" (some (-5)) true false cConfig).1.alert_settings
      "ap-01" = some ⟨-5, true, false⟩ ∧
    ((-5 : Int) < 0) := by
  exact ⟨by decide, by decide, by decide⟩

/-- Dict assignment followed by lookup on the same key returns the assigned
rule. -/
theorem lookupRule_insertRule (l : List (String × AlertRule)) (h : String)
    (r : AlertRule) : lookupRule (insertRule l h r) h = some r := by
  induction l with
  | nil => simp [insertRule, lookupRule]
  | cons kv rest ih =>
    obtain ⟨k, r0⟩ := kv
    by_cases hk : k = h
    · simp [insertRule, hk, lookupRule]
    · simp [insertRule, hk, lookupRule, ih]

/-- C9 amended: for a nonempty hostname the operation stores the submitted
integer threshold verbatim (0 when the value is absent or zero) with no sign
check, so negative thresholds can be stored; any rule whose threshold is not
positive never produces an AlertEvent, because alerting requires
threshold > 0, so every non-positive threshold behaves as disabled. -/
theorem c9_amended_threshold_stored (hostname : String) (t : Int) (e s : Bool)
    (cfg : Config) (settings : List (String × AlertRule)) (h2 : String) (v : Int)
    (r : AlertRule) (hh : hostname ≠ "")
    (hr : lookupRule settings h2 = some r) (hle : r.threshold ≤ 0) :
    lookupAlertSetting
      (save_alert_settings_op hostname (some t) e s cfg).1.alert_settings hostname =
      some ⟨t, e, s⟩ ∧
    rowEvents settings h2 v = [] := by
  constructor
  · have ht : save_alert_threshold (some t) = t := by
      by_cases h0 : t = 0 <;> simp [save_alert_threshold, h0]
    simp [save_alert_settings_op, hh, lookupAlertSetting, ht, lookupRule_insertRule]
  · simp only [rowEvents, hr]
    rw [if_neg]
    rintro ⟨h1, h2⟩
    omega

/-- Witness for C9 amended: threshold -5 stored verbatim for ap-01, and a
rule with threshold -3 never alerts even at usage 100. -/
theorem c9_witness :
    lookupAlertSetting
      (save_alert_settings_op "ap-01" (some (-5)) true false cConfig).1.alert_settings
      "ap-01" = some ⟨-5, true, false⟩ ∧
    rowEvents [("ap-03", ⟨-3, true, true⟩)] "ap-03" 100 = [] :=
  c9_amended_threshold_stored "ap-01" (-5) true false cConfig
    [("ap-03", ⟨-3, true, true⟩)] "ap-03" 100 ⟨-3, true, true⟩
    (by decide) (by decide) (by decide)

/-- C1: for an evaluated row (hostname present, nonempty, not TOTAL, AP
value parsing to v, a rule configured for the hostname) the checker emits
exactly one event per enabled channel when threshold > 0 and v > threshold,
and no event otherwise; in particular v equal to the threshold emits
nothing. The second conjunct ties the per-row events to the output of
check_license_alerts on a pool holding that row. -/
theorem c1_row_alert_events (settings : List (String × AlertRule)) (row : UsageRow)
    (hn poolName : String) (v : Int) (r : AlertRule)
    (hH : row.Hostname = some hn) (hne : hn ≠ "") (hnt : hn ≠ "TOTAL")
    (hv : parseAPValue row.AP = some v) (hr : lookupRule settings hn = some r)
    (hp : poolNameMatches poolName = true) :
    processRow settings row = Except.ok (rowEvents settings hn v) ∧
    check_license_alerts settings [(poolName, [row])] =
      (rowEvents settings hn v, false) ∧
    ((rowEvents settings hn v).countP (fun e => e.channel == Channel.email) =
      if r.threshold > 0 ∧ v > r.threshold ∧ r.email_enabled then 1 else 0) ∧
    ((rowEvents settings hn v).countP (fun e => e.channel == Channel.syslog) =
      if r.threshold > 0 ∧ v > r.threshold ∧ r.syslog_enabled then 1 else 0) ∧
    (¬(r.threshold > 0 ∧ v > r.threshold) → rowEvents settings hn v = []) ∧
    (v = r.threshold → rowEvents settings hn v = []) := by
  have hrow : processRow settings row = Except.ok (rowEvents settings hn v) := by
    simp [processRow, hH, hne, hnt, hv]
  have hset : settings.isEmpty = false := by
    cases settings
    · simp [lookupRule] at hr
    · rfl
  refine ⟨hrow, ?_, ?_, ?_, ?_, ?_⟩
  · simp [check_license_alerts, hset, checkPools, hp, processRows, hrow]
  · by_cases hc1 : v > r.threshold ∧ r.threshold > 0
    · by_cases he : r.email_enabled <;> by_cases hs : r.syslog_enabled <;>
        simp [rowEvents, hr, hc1, he, hs, hc1.1, hc1.2,
          List.countP_cons, List.countP_nil]
    · have hc2 : ¬(r.threshold > 0 ∧ v > r.threshold ∧ r.email_enabled) := by tauto
      simp [rowEvents, hr, hc1, hc2]
  · by_cases hc1 : v > r.threshold ∧ r.threshold > 0
    · by_cases he : r.email_enabled <;> by_cases hs : r.syslog_enabled <;>
        simp [rowEvents, hr, hc1, he, hs, hc1.1, hc1.2,
          List.countP_cons, List.countP_nil]
    · have hc2 : ¬(r.threshold > 0 ∧ v > r.threshold ∧ r.syslog_enabled) := by tauto
      simp [rowEvents, hr, hc1, hc2]
  · intro hnc
    have hc1 : ¬(v > r.threshold ∧ r.threshold > 0) := by tauto
    simp [rowEvents, hr, hc1]
  · intro hveq
    have hc1 : ¬(v > r.threshold ∧ r.threshold > 0) := by
      rintro ⟨h1, h2⟩
      omega
    simp [rowEvents, hr, hc1]

/-- Witness for C1 at the spec scenario: rule threshold 10 with email
enabled and syslog disabled, row AP value "12". -/
theorem c1_witness :
    processRow wSettings wRow = Except.ok (rowEvents wSettings "ap-01" 12) ∧
    check_license_alerts wSettings [(cPoolName, [wRow])] =
      (rowEvents wSettings "ap-01" 12, false) ∧
    ((rowEvents wSettings "ap-01" 12).countP (fun e => e.channel == Channel.email) =
      if wRule.threshold > 0 ∧ 12 > wRule.threshold ∧ wRule.email_enabled then 1 else 0) ∧
    ((rowEvents wSettings "ap-01" 12).countP (fun e => e.channel == Channel.syslog) =
      if wRule.threshold > 0 ∧ 12 > wRule.threshold ∧ wRule.syslog_enabled then 1 else 0) ∧
    (¬(wRule.threshold > 0 ∧ 12 > wRule.threshold) → rowEvents wSettings "ap-01" 12 = []) ∧
    ((12 : Int) = wRule.threshold → rowEvents wSettings "ap-01" 12 = []) :=
  c1_row_alert_events wSettings wRow "ap-01" cPoolName 12 wRule rfl (by decide)
    (by decide) (by decide) (by decide) (by decide)
